import Mathlib

/-!
Verification of the bunnylol command-routing core
(`src/bunnylol_command_registry.rs`, `src/server/mod.rs`,
`src/commands/open.rs`).

Strings are embedded as `List Char` (`Str`), so every definition is
executable and string predicates are decidable.  Rust's `HashMap` is
modelled as an association list in which a later insertion is prepended,
so a lookup observes exactly the `insert`-overwrites-earlier behaviour
of the source.  `OnceLock` is modelled by explicit state passing of an
`Option` cell.

Command handlers other than `OpenCommand` are not part of the given
source tree (only the registration list, the tests and the spec mention
them); those are modelled from the spec and are marked as such in their
doc comments.
-/

/-- Embedded string type: Rust `String` / `&str` as a list of characters. -/
abbrev Str := List Char

/-- Convert a Lean string literal to the embedded string type. -/
def str (s : String) : Str := s.toList

/-- Type alias for command handler functions (`type CommandHandler = fn(&str) -> String`). -/
abbrev CommandHandler := Str → Str

/-- The `BunnylolCommandInfo` record of the data model: bindings, description and example. -/
structure BunnylolCommandInfo where
  bindings : List Str
  description : Str
  «example» : Str
deriving DecidableEq, Repr

/-- A registered command capability: its declared bindings, its pure
`process_args` handler and its descriptor (`get_info`). -/
structure Command where
  bindings : List Str
  process_args : CommandHandler
  get_info : BunnylolCommandInfo

/-- Whitespace predicate used by `trim`: the space character, matching
the single-space tokenisation of the source. -/
def isSpace (c : Char) : Bool := c = ' '

/-- Rust `str::trim` on the embedded strings: drop leading and trailing
whitespace. -/
def trim (s : Str) : Str :=
  ((s.dropWhile isSpace).reverse.dropWhile isSpace).reverse

/-- Modelled from the spec: the `BunnylolCommand` trait's `get_command_args`
helper (its definition is not in the given source tree).  It returns the
part of the raw input after the first whitespace-delimited token — the
spec tokenises on whitespace and the handlers receive the raw argument
string with the command token included. -/
def get_command_args (args : Str) : Str :=
  (args.dropWhile (fun c => c ≠ ' ')).drop 1

/-- Modelled from the spec: `utils::get_command_from_query_string`, whose
definition is not in the given source tree.  Per the spec, lookup is an
exact match on the first whitespace-delimited token of the input. -/
def get_command_from_query_string (query : Str) : Str :=
  query.takeWhile (fun c => c ≠ ' ')

/-- The `OpenCommand::process_args` handler from `src/commands/open.rs`: empty
argument yields `https://`, an argument already carrying a scheme is
returned unchanged, otherwise `https://` is prepended. -/
def OpenCommand.process_args (args : Str) : Str :=
  let fqdn := trim (get_command_args args)
  if fqdn = [] then
    str "https://"
  else if (str "http://").isPrefixOf fqdn ∨ (str "https://").isPrefixOf fqdn then
    fqdn
  else
    str "https://" ++ fqdn

/-- The `OpenCommand::get_info` descriptor from `src/commands/open.rs`. -/
def OpenCommand.info : BunnylolCommandInfo :=
  { bindings := [str "open"]
  , description := str "Open an arbitrary website by FQDN"
  , «example» := str "open example.com" }

/-- The `OpenCommand` capability (`BINDINGS = ["open"]`). -/
def OpenCommand : Command :=
  { bindings := [str "open"]
  , process_args := OpenCommand.process_args
  , get_info := OpenCommand.info }

/-- Modelled from the spec: `GitHubCommand::process_args` is not in the
given source tree.  The serving-layer test pins down its behaviour:
`gh mbinns` resolves to `https://github.com/mbinns`, and per the handler
contract a missing argument degrades to the service root. -/
def GitHubCommand.process_args (args : Str) : Str :=
  let a := trim (get_command_args args)
  if a = [] then str "https://github.com" else str "https://github.com/" ++ a

/-- Modelled from the spec: `GitHubCommand`, binding `gh` (asserted by
the registry tests). -/
def GitHubCommand : Command :=
  { bindings := [str "gh"]
  , process_args := GitHubCommand.process_args
  , get_info :=
    { bindings := [str "gh"]
    , description := str "Navigate to GitHub"
    , «example» := str "gh mbinns" } }

/-- Modelled from the spec: `TwitterCommand::process_args` is not in the
given source tree; a missing argument degrades to the service root. -/
def TwitterCommand.process_args (args : Str) : Str :=
  let a := trim (get_command_args args)
  if a = [] then str "https://twitter.com" else str "https://twitter.com/" ++ a

/-- Modelled from the spec: `TwitterCommand`, binding `tw` (asserted by
the registry tests). -/
def TwitterCommand : Command :=
  { bindings := [str "tw"]
  , process_args := TwitterCommand.process_args
  , get_info :=
    { bindings := [str "tw"]
    , description := str "Navigate to Twitter"
    , «example» := str "tw user" } }

/-- Modelled from the spec: `RedditCommand::process_args` is not in the
given source tree; a missing argument degrades to the service root. -/
def RedditCommand.process_args (args : Str) : Str :=
  let a := trim (get_command_args args)
  if a = [] then str "https://reddit.com" else str "https://reddit.com/r/" ++ a

/-- Modelled from the spec: `RedditCommand`, bindings `r` and `reddit`
(asserted by the registry tests). -/
def RedditCommand : Command :=
  { bindings := [str "r", str "reddit"]
  , process_args := RedditCommand.process_args
  , get_info :=
    { bindings := [str "r", str "reddit"]
    , description := str "Navigate to Reddit"
    , «example» := str "r rust" } }

/-- Modelled from the spec: `InstagramCommand::process_args` is not in
the given source tree; a missing argument degrades to the service root. -/
def InstagramCommand.process_args (args : Str) : Str :=
  let a := trim (get_command_args args)
  if a = [] then str "https://instagram.com" else str "https://instagram.com/" ++ a

/-- Modelled from the spec: `InstagramCommand`, bindings `ig` and
`instagram` (asserted by the registry tests). -/
def InstagramCommand : Command :=
  { bindings := [str "ig", str "instagram"]
  , process_args := InstagramCommand.process_args
  , get_info :=
    { bindings := [str "ig", str "instagram"]
    , description := str "Navigate to Instagram"
    , «example» := str "ig user" } }

/-- Modelled from the spec: `GoogleSearchCommand::process_args`, the
built-in default search provider, is not in the given source tree.  Per
the spec it builds a search URL with the full raw input passed through
as the query. -/
def GoogleSearchCommand.process_args (args : Str) : Str :=
  str "https://www.google.com/search?q=" ++ args

/-- Modelled from the spec: `StockCommand::process_ticker`, the stock
ticker prefix handler, is not in the given source tree.  Per the spec it
builds a ticker-specific URL, distinct from the default-search path,
from the token following the `$` sentinel. -/
def StockCommand.process_ticker (command : Str) : Str :=
  str "https://finance.yahoo.com/quote/" ++ command.drop 1


/-- Modelled from the spec: the generic shape of a registered command's
handler (the handler contract of the spec) — a missing argument degrades
to the service root, otherwise the trimmed argument is appended to the
service's path.  Used for the registered commands whose implementation
files are missing from src/. -/
def serviceHandler (root path : String) (args : Str) : Str :=
  let a := trim (get_command_args args)
  if a = [] then str root else str path ++ a

/-- Modelled from the spec: builder for a registered command capability
whose implementation file is missing from src/ — declared bindings, a
handler per the spec's contract, and a descriptor listing the same
bindings. -/
def mkServiceCommand (bindings : List String) (root path desc ex : String) : Command :=
  { bindings := bindings.map str
  , process_args := serviceHandler root path
  , get_info :=
    { bindings := bindings.map str
    , description := str desc
    , «example» := str ex } }

/-- Modelled from the spec: the `BindingsCommand` registration entry of the
src registration list; its implementation file is missing from src/. -/
def BindingsCommand : Command :=
  mkServiceCommand ["bindings", "help"]
    "https://localhost/bindings" "https://localhost/bindings?f="
    "List all command bindings" "bindings"

/-- Modelled from the spec: the `GitlabCommand` registration entry of the
src registration list; its implementation file is missing from src/. -/
def GitlabCommand : Command :=
  mkServiceCommand ["gl", "gitlab"]
    "https://gitlab.com" "https://gitlab.com/"
    "Navigate to GitLab" "gl user"

/-- Modelled from the spec: the `GmailCommand` registration entry of the
src registration list; its implementation file is missing from src/. -/
def GmailCommand : Command :=
  mkServiceCommand ["gmail", "mail"]
    "https://mail.google.com" "https://mail.google.com/mail/u/"
    "Navigate to Gmail" "gmail 0"

/-- Modelled from the spec: the `REICommand` registration entry of the
src registration list; its implementation file is missing from src/. -/
def REICommand : Command :=
  mkServiceCommand ["rei"]
    "https://www.rei.com" "https://www.rei.com/search?q="
    "Search REI" "rei tents"

/-- Modelled from the spec: the `LinkedInCommand` registration entry of the
src registration list; its implementation file is missing from src/. -/
def LinkedInCommand : Command :=
  mkServiceCommand ["li", "linkedin"]
    "https://linkedin.com" "https://linkedin.com/in/"
    "Navigate to LinkedIn" "li user"

/-- Modelled from the spec: the `FacebookCommand` registration entry of the
src registration list; its implementation file is missing from src/. -/
def FacebookCommand : Command :=
  mkServiceCommand ["fb", "facebook"]
    "https://facebook.com" "https://facebook.com/"
    "Navigate to Facebook" "fb user"

/-- Modelled from the spec: the `ThreadsCommand` registration entry of the
src registration list; its implementation file is missing from src/. -/
def ThreadsCommand : Command :=
  mkServiceCommand ["threads", "th"]
    "https://threads.net" "https://threads.net/@"
    "Navigate to Threads" "threads user"

/-- Modelled from the spec: the `WhatsAppCommand` registration entry of the
src registration list; its implementation file is missing from src/. -/
def WhatsAppCommand : Command :=
  mkServiceCommand ["wa", "whatsapp"]
    "https://web.whatsapp.com" "https://wa.me/"
    "Navigate to WhatsApp" "wa number"

/-- Modelled from the spec: the `MetaCommand` registration entry of the
src registration list; its implementation file is missing from src/. -/
def MetaCommand : Command :=
  mkServiceCommand ["meta"]
    "https://meta.com" "https://meta.com/"
    "Navigate to Meta" "meta"

/-- Modelled from the spec: the `CargoCommand` registration entry of the
src registration list; its implementation file is missing from src/. -/
def CargoCommand : Command :=
  mkServiceCommand ["cargo", "crates"]
    "https://crates.io" "https://crates.io/crates/"
    "Search crates.io" "cargo serde"

/-- Modelled from the spec: the `NpmCommand` registration entry of the
src registration list; its implementation file is missing from src/. -/
def NpmCommand : Command :=
  mkServiceCommand ["npm", "npmjs"]
    "https://www.npmjs.com" "https://www.npmjs.com/package/"
    "Search npm" "npm express"

/-- Modelled from the spec: the `OnePasswordCommand` registration entry of the
src registration list; its implementation file is missing from src/. -/
def OnePasswordCommand : Command :=
  mkServiceCommand ["1p", "1password"]
    "https://my.1password.com" "https://my.1password.com/vaults/"
    "Navigate to 1Password" "1p vault"

/-- Modelled from the spec: the `ClaudeCommand` registration entry of the
src registration list; its implementation file is missing from src/. -/
def ClaudeCommand : Command :=
  mkServiceCommand ["claude"]
    "https://claude.ai" "https://claude.ai/"
    "Navigate to Claude" "claude"

/-- Modelled from the spec: the `ChatGPTCommand` registration entry of the
src registration list; its implementation file is missing from src/. -/
def ChatGPTCommand : Command :=
  mkServiceCommand ["chatgpt", "gpt"]
    "https://chatgpt.com" "https://chatgpt.com/?q="
    "Navigate to ChatGPT" "chatgpt"

/-- Modelled from the spec: the `RustCommand` registration entry of the
src registration list; its implementation file is missing from src/. -/
def RustCommand : Command :=
  mkServiceCommand ["rust", "rs"]
    "https://doc.rust-lang.org" "https://doc.rust-lang.org/std/?search="
    "Search Rust docs" "rust vec"

/-- Modelled from the spec: the `HackCommand` registration entry of the
src registration list; its implementation file is missing from src/. -/
def HackCommand : Command :=
  mkServiceCommand ["hack", "hhvm"]
    "https://docs.hhvm.com" "https://docs.hhvm.com/hack/search?q="
    "Search Hack docs" "hack vec"

/-- Modelled from the spec: the `AmazonCommand` registration entry of the
src registration list; its implementation file is missing from src/. -/
def AmazonCommand : Command :=
  mkServiceCommand ["az", "amazon"]
    "https://www.amazon.com" "https://www.amazon.com/s?k="
    "Search Amazon" "az books"

/-- Modelled from the spec: the `YouTubeCommand` registration entry of the
src registration list; its implementation file is missing from src/. -/
def YouTubeCommand : Command :=
  mkServiceCommand ["yt", "youtube"]
    "https://youtube.com" "https://youtube.com/results?search_query="
    "Search YouTube" "yt music"

/-- Modelled from the spec: the `WikipediaCommand` registration entry of the
src registration list; its implementation file is missing from src/. -/
def WikipediaCommand : Command :=
  mkServiceCommand ["wiki", "wikipedia"]
    "https://wikipedia.org" "https://en.wikipedia.org/wiki/"
    "Search Wikipedia" "wiki lean"

/-- Modelled from the spec: the `DuckDuckGoCommand` registration entry of the
src registration list; its implementation file is missing from src/. -/
def DuckDuckGoCommand : Command :=
  mkServiceCommand ["ddg", "duckduckgo"]
    "https://duckduckgo.com" "https://duckduckgo.com/?q="
    "Search DuckDuckGo" "ddg lean"

/-- Modelled from the spec: the `SchwabCommand` registration entry of the
src registration list; its implementation file is missing from src/. -/
def SchwabCommand : Command :=
  mkServiceCommand ["schwab"]
    "https://www.schwab.com" "https://www.schwab.com/search?q="
    "Navigate to Schwab" "schwab"

/-- Modelled from the spec: the `SoundCloudCommand` registration entry of the
src registration list; its implementation file is missing from src/. -/
def SoundCloudCommand : Command :=
  mkServiceCommand ["sc", "soundcloud"]
    "https://soundcloud.com" "https://soundcloud.com/"
    "Navigate to SoundCloud" "sc artist"

/-- Modelled from the spec: the `StockCommand` registration entry of the
src registration list; its implementation file is missing from src/. -/
def StockCommand : Command :=
  mkServiceCommand ["stock", "stocks"]
    "https://finance.yahoo.com" "https://finance.yahoo.com/quote/"
    "Look up a stock ticker" "stock AAPL"

/-- Modelled from the spec: the `GoogleDocsCommand` registration entry of the
src registration list; its implementation file is missing from src/. -/
def GoogleDocsCommand : Command :=
  mkServiceCommand ["docs", "gdocs"]
    "https://docs.google.com" "https://docs.google.com/document/d/"
    "Navigate to Google Docs" "docs"

/-- Modelled from the spec: the `GoogleMapsCommand` registration entry of the
src registration list; its implementation file is missing from src/. -/
def GoogleMapsCommand : Command :=
  mkServiceCommand ["maps", "gmaps"]
    "https://maps.google.com" "https://maps.google.com/maps?q="
    "Search Google Maps" "maps cafe"

/-- Modelled from the spec: the `GoogleSheetsCommand` registration entry of the
src registration list; its implementation file is missing from src/. -/
def GoogleSheetsCommand : Command :=
  mkServiceCommand ["sheets", "gsheets"]
    "https://sheets.google.com" "https://docs.google.com/spreadsheets/d/"
    "Navigate to Google Sheets" "sheets"

/-- Modelled from the spec: the `GoogleSlidesCommand` registration entry of the
src registration list; its implementation file is missing from src/. -/
def GoogleSlidesCommand : Command :=
  mkServiceCommand ["slides", "gslides"]
    "https://slides.google.com" "https://docs.google.com/presentation/d/"
    "Navigate to Google Slides" "slides"

/-- Modelled from the spec: the `GoogleChatCommand` registration entry of the
src registration list; its implementation file is missing from src/. -/
def GoogleChatCommand : Command :=
  mkServiceCommand ["chat", "gchat"]
    "https://chat.google.com" "https://chat.google.com/room/"
    "Navigate to Google Chat" "chat"

/-- Modelled from the spec: the `BrewCommand` registration entry of the
src registration list; its implementation file is missing from src/. -/
def BrewCommand : Command :=
  mkServiceCommand ["brew", "homebrew"]
    "https://brew.sh" "https://formulae.brew.sh/formula/"
    "Search Homebrew formulae" "brew wget"

/-- Modelled from the spec: the `ChocoCommand` registration entry of the
src registration list; its implementation file is missing from src/. -/
def ChocoCommand : Command :=
  mkServiceCommand ["choco", "chocolatey"]
    "https://chocolatey.org" "https://chocolatey.org/packages?q="
    "Search Chocolatey" "choco git"

/-- Modelled from the spec: the `DockerhubCommand` registration entry of the
src registration list; its implementation file is missing from src/. -/
def DockerhubCommand : Command :=
  mkServiceCommand ["docker", "dockerhub"]
    "https://hub.docker.com" "https://hub.docker.com/search?q="
    "Search Docker Hub" "docker redis"

/-- Modelled from the spec: the `GodocsCommand` registration entry of the
src registration list; its implementation file is missing from src/. -/
def GodocsCommand : Command :=
  mkServiceCommand ["godoc", "godocs"]
    "https://pkg.go.dev" "https://pkg.go.dev/search?q="
    "Search Go docs" "godoc http"

/-- Modelled from the spec: the `GopkgCommand` registration entry of the
src registration list; its implementation file is missing from src/. -/
def GopkgCommand : Command :=
  mkServiceCommand ["gopkg"]
    "https://pkg.go.dev" "https://pkg.go.dev/"
    "Navigate to a Go package" "gopkg fmt"

/-- Modelled from the spec: the `MdnCommand` registration entry of the
src registration list; its implementation file is missing from src/. -/
def MdnCommand : Command :=
  mkServiceCommand ["mdn"]
    "https://developer.mozilla.org" "https://developer.mozilla.org/search?q="
    "Search MDN" "mdn array"

/-- Modelled from the spec: the `NodeCommand` registration entry of the
src registration list; its implementation file is missing from src/. -/
def NodeCommand : Command :=
  mkServiceCommand ["node", "nodejs"]
    "https://nodejs.org" "https://nodejs.org/api/"
    "Navigate to Node.js docs" "node fs"

/-- Modelled from the spec: the `NugetCommand` registration entry of the
src registration list; its implementation file is missing from src/. -/
def NugetCommand : Command :=
  mkServiceCommand ["nuget"]
    "https://www.nuget.org" "https://www.nuget.org/packages?q="
    "Search NuGet" "nuget json"

/-- Modelled from the spec: the `PackagistCommand` registration entry of the
src registration list; its implementation file is missing from src/. -/
def PackagistCommand : Command :=
  mkServiceCommand ["packagist", "composer"]
    "https://packagist.org" "https://packagist.org/search/?q="
    "Search Packagist" "packagist laravel"

/-- Modelled from the spec: the `PypiCommand` registration entry of the
src registration list; its implementation file is missing from src/. -/
def PypiCommand : Command :=
  mkServiceCommand ["pypi", "pip"]
    "https://pypi.org" "https://pypi.org/search/?q="
    "Search PyPI" "pypi requests"

/-- Modelled from the spec: the `PythonCommand` registration entry of the
src registration list; its implementation file is missing from src/. -/
def PythonCommand : Command :=
  mkServiceCommand ["py", "python"]
    "https://docs.python.org" "https://docs.python.org/3/search.html?q="
    "Search Python docs" "py list"

/-- Modelled from the spec: the `RubygemsCommand` registration entry of the
src registration list; its implementation file is missing from src/. -/
def RubygemsCommand : Command :=
  mkServiceCommand ["gem", "rubygems"]
    "https://rubygems.org" "https://rubygems.org/search?query="
    "Search RubyGems" "gem rails"

/-- Modelled from the spec: the `StackOverflowCommand` registration entry of the
src registration list; its implementation file is missing from src/. -/
def StackOverflowCommand : Command :=
  mkServiceCommand ["so", "stackoverflow"]
    "https://stackoverflow.com" "https://stackoverflow.com/search?q="
    "Search Stack Overflow" "so lean4"

/-- Modelled from the spec: the `GoogleSearchCommand` registration entry
(its implementation file is missing from src/); its handler is the
built-in default search provider. -/
def GoogleSearchCommand : Command :=
  { bindings := [str "g", str "google"]
  , process_args := GoogleSearchCommand.process_args
  , get_info :=
    { bindings := [str "g", str "google"]
    , description := str "Search Google"
    , «example» := str "g lean4" } }

/-- The full command registration list of the `register_commands!`
invocation in `src/bunnylol_command_registry.rs` (47 commands, kept in
the source's registration order).  `OpenCommand` is embedded from
source; the bindings pinned by the registry tests (`gh`, `tw`,
`r`/`reddit`, `ig`/`instagram`) are kept, and the remaining entries,
whose implementation files are missing from src/, are the spec-modelled
capabilities above (84 bindings in total, matching the in-src test's
lower bound of 83). -/
def registeredCommands : List Command :=
  [ BindingsCommand, GitHubCommand, GitlabCommand, TwitterCommand, RedditCommand
  , GmailCommand, REICommand, InstagramCommand, LinkedInCommand, FacebookCommand
  , ThreadsCommand, WhatsAppCommand, MetaCommand, CargoCommand, NpmCommand
  , OnePasswordCommand, ClaudeCommand, ChatGPTCommand, RustCommand, HackCommand
  , AmazonCommand, YouTubeCommand, WikipediaCommand, DuckDuckGoCommand, SchwabCommand
  , SoundCloudCommand, StockCommand, GoogleDocsCommand, GoogleMapsCommand, GoogleSheetsCommand
  , GoogleSlidesCommand, GoogleChatCommand, GoogleSearchCommand, BrewCommand, ChocoCommand
  , DockerhubCommand, GodocsCommand, GopkgCommand, MdnCommand, NodeCommand
  , NugetCommand, OpenCommand, PackagistCommand, PypiCommand, PythonCommand
  , RubygemsCommand, StackOverflowCommand ]

/-- One iteration of the inner loop of `initialize_command_lookup`:
`map.insert(*alias, handler)` for every alias of one command.  The
`HashMap` is represented as an association list searched front-to-back,
so prepending the new entry realises insert-overwrites-earlier. -/
def insertCommand (m : List (Str × CommandHandler)) (c : Command) :
    List (Str × CommandHandler) :=
  c.bindings.foldl (fun m' b => (b, c.process_args) :: m') m

/-- The body of `initialize_command_lookup`, generic in the registration
list the `register_commands!` macro is instantiated with. -/
def buildCommandLookup (cmds : List Command) : List (Str × CommandHandler) :=
  cmds.foldl insertCommand []

/-- The `initialize_command_lookup()` result: the binding-to-handler map built from
the registration list. -/
def initialize_command_lookup : List (Str × CommandHandler) :=
  buildCommandLookup registeredCommands

/-- The `get_all_commands_impl()` result: the ordered descriptor list, one
`get_info()` per registered command. -/
def get_all_commands_impl : List BunnylolCommandInfo :=
  registeredCommands.map Command.get_info

/-- Modelled from the spec: `BunnylolConfig` (`src/config` is not in the
given source tree).  It carries the default-search URL template (the
query is passed through, appended to the template), the user-alias
mapping and the history-enable flag. -/
structure BunnylolConfig where
  default_search : Str
  aliases : List (Str × Str)
  history_enabled : Bool

/-- Modelled from the spec: `BunnylolConfig::get_search_url` builds the
fallback destination from the config-supplied template with the full raw
input passed through as the query. -/
def BunnylolConfig.get_search_url (cfg : BunnylolConfig) (args : Str) : Str :=
  cfg.default_search ++ args

/-- Modelled from the spec: `BunnylolConfig::resolve_command`
(AliasResolver).  If the raw command equals a user-alias key, the entire
input is replaced by the expansion; otherwise the input is unchanged.
Single-pass, never recursive. -/
def BunnylolConfig.resolve_command (cfg : BunnylolConfig) (cmd : Str) : Str :=
  match cfg.aliases.lookup cmd with
  | some expansion => expansion
  | none => cmd

/-- The `BunnylolCommandRegistry::process_prefix_commands` step: a token starting
with the `$` sentinel of length greater than one dispatches to the stock
ticker handler; the bare sentinel (length at most one) falls through. -/
def process_prefix_commands (command : Str) : Option Str :=
  if command.head? = some '$' then
    if command.length ≤ 1 then none
    else some (StockCommand.process_ticker command)
  else none

/-- The `BunnylolCommandRegistry::process_command_with_config` router: prefix check
first, then exact lookup of the token in the registry, then fallback to
the config-supplied search URL or the built-in default provider. -/
def process_command_with_config (command : Str) (full_args : Str)
    (config : Option BunnylolConfig) : Str :=
  match process_prefix_commands command with
  | some url => url
  | none =>
    match initialize_command_lookup.lookup command with
    | some handler => handler full_args
    | none =>
      match config with
      | some cfg => cfg.get_search_url full_args
      | none => GoogleSearchCommand.process_args full_args

/-- The `BunnylolCommandRegistry::process_command` entry point: same routing with no
config. -/
def process_command (command : Str) (full_args : Str) : Str :=
  process_command_with_config command full_args none

/-- The `OnceLock::get_or_init` primitive modelled by explicit state passing: the cell
is an `Option`; a filled cell returns its value untouched, an empty cell
runs the initialiser exactly once and stores the result. -/
def getOrInit {α : Type} (cell : Option α) (init : Unit → α) : α × Option α :=
  match cell with
  | some v => (v, some v)
  | none =>
    let v := init ()
    (v, some v)

/-- The `BunnylolCommandRegistry::get_all_commands` accessor: read the
`BINDINGS_DATA` cell, initialising it from `get_all_commands_impl` on
first access.  Returns the value and the cell state after the call. -/
def get_all_commands (cell : Option (List BunnylolCommandInfo)) :
    List BunnylolCommandInfo × Option (List BunnylolCommandInfo) :=
  getOrInit cell (fun _ => get_all_commands_impl)

/-- The serving layer's response: a redirect to a URL, or the rendered
landing page. -/
inductive SearchResponse where
  | redirect (url : Str)
  | landing
deriving DecidableEq

/-- The outcome of the history-recording chain in `search`:
`none` when `History::new` yields no store, otherwise `history.add`'s
result (`Except.error` carries the failure message). -/
abbrev HistoryOutcome := Option (Except Str Unit)

/-- The `search` route handler from `src/server/mod.rs`, with the
history side effect abstracted as an input outcome and the emitted
warning messages returned alongside the response.  With a `cmd`
parameter it resolves aliases, tokenises, routes through the registry
and redirects; a history failure is only logged as a warning.  Without
`cmd` it renders the landing page. -/
def search (cmd : Option Str) (config : BunnylolConfig)
    (history : HistoryOutcome) : SearchResponse × List Str :=
  match cmd with
  | some cmd_str =>
    let resolved_cmd := config.resolve_command cmd_str
    let command := get_command_from_query_string resolved_cmd
    let redirect_url := process_command_with_config command resolved_cmd (some config)
    let warnings :=
      if config.history_enabled then
        match history with
        | some (Except.error e) =>
          [str "Warning: Failed to save command to history: " ++ e]
        | _ => []
      else []
    (SearchResponse.redirect redirect_url, warnings)
  | none => (SearchResponse.landing, [])

/-- A hypothetical command sharing the `gh` binding with a distinct
handler, used to exhibit the shadowing behaviour of duplicate
registrations. -/
def ShadowGithubCommand : Command :=
  { bindings := [str "gh"]
  , process_args := fun _ => str "https://example.com/shadow"
  , get_info :=
    { bindings := [str "gh"]
    , description := str "shadow"
    , «example» := str "gh" } }

/-- A configuration carrying the user alias of the serving-layer test:
`work` expands to `gh mbinns`. -/
def workConfig : BunnylolConfig :=
  { default_search := str "https://www.google.com/search?q="
  , aliases := [(str "work", str "gh mbinns")]
  , history_enabled := false }

/-- Association-list lookup at a matching head entry. -/
theorem lookup_cons_pos {α β : Type} [BEq α] (a k : α) (v : β) (es : List (α × β))
    (h : (a == k) = true) : List.lookup a ((k, v) :: es) = some v := by
  simp [List.lookup, h]

/-- Association-list lookup skips a non-matching head entry. -/
theorem lookup_cons_neg {α β : Type} [BEq α] (a k : α) (v : β) (es : List (α × β))
    (h : (a == k) = false) : List.lookup a ((k, v) :: es) = List.lookup a es := by
  simp [List.lookup, h]

/-- Inserting bindings that do not mention `b` leaves the lookup of `b`
unchanged. -/
theorem lookup_foldl_insert_of_not_mem (h : CommandHandler) (b : Str) (bs : List Str)
    (hb : b ∉ bs) (m : List (Str × CommandHandler)) :
    (bs.foldl (fun m' x => (x, h) :: m') m).lookup b = m.lookup b := by
  induction bs generalizing m with
  | nil => rfl
  | cons x rest ih =>
    have hbx : b ≠ x := fun hcontra => hb (hcontra ▸ List.mem_cons_self x rest)
    have hbr : b ∉ rest := fun hcontra => hb (List.mem_cons_of_mem x hcontra)
    simp only [List.foldl_cons]
    rw [ih hbr, lookup_cons_neg _ _ _ _ (beq_eq_false_iff_ne.mpr hbx)]

/-- Inserting a run of bindings for one handler makes every one of those
bindings look up to that handler. -/
theorem lookup_foldl_insert_of_mem (h : CommandHandler) (b : Str) (bs : List Str)
    (hb : b ∈ bs) (m : List (Str × CommandHandler)) :
    (bs.foldl (fun m' x => (x, h) :: m') m).lookup b = some h := by
  induction bs generalizing m with
  | nil => exact absurd hb (List.not_mem_nil b)
  | cons x rest ih =>
    simp only [List.foldl_cons]
    by_cases hbr : b ∈ rest
    · exact ih hbr _
    · have hbx : b = x := by
        rcases List.mem_cons.mp hb with h1 | h1
        · exact h1
        · exact absurd h1 hbr
      rw [lookup_foldl_insert_of_not_mem h b rest hbr,
        lookup_cons_pos _ _ _ _ (beq_iff_eq.mpr hbx)]

/-- One command's registration resolves each of its bindings to its
handler. -/
theorem lookup_insertCommand_of_mem (c : Command) (b : Str) (hb : b ∈ c.bindings)
    (m : List (Str × CommandHandler)) :
    (insertCommand m c).lookup b = some c.process_args :=
  lookup_foldl_insert_of_mem c.process_args b c.bindings hb m

/-- Registering commands none of which binds `b` leaves the lookup of
`b` unchanged. -/
theorem lookup_foldl_commands_of_not_mem (cmds : List Command) (b : Str)
    (hcmds : ∀ c ∈ cmds, b ∉ c.bindings) (m : List (Str × CommandHandler)) :
    (cmds.foldl insertCommand m).lookup b = m.lookup b := by
  induction cmds generalizing m with
  | nil => rfl
  | cons c rest ih =>
    simp only [List.foldl_cons]
    rw [ih (fun c' hc' => hcmds c' (List.mem_cons_of_mem c hc'))]
    exact lookup_foldl_insert_of_not_mem c.process_args b c.bindings
      (hcmds c (List.mem_cons_self c rest)) m

/-- In the built lookup table, a binding resolves to the handler of the
last command in registration order that declares it. -/
theorem buildCommandLookup_last_wins (pre post : List Command) (c : Command) (b : Str)
    (hb : b ∈ c.bindings) (hpost : ∀ c' ∈ post, b ∉ c'.bindings) :
    (buildCommandLookup (pre ++ c :: post)).lookup b = some c.process_args := by
  unfold buildCommandLookup
  rw [List.foldl_append]
  simp only [List.foldl_cons]
  rw [lookup_foldl_commands_of_not_mem post b hpost]
  exact lookup_insertCommand_of_mem c b hb _


/-- Appending to a non-empty literal string keeps it non-empty. -/
theorem str_append_ne_nil (s : String) (hs : str s ≠ []) (a : Str) : str s ++ a ≠ [] := by
  intro h
  exact hs (List.append_eq_nil.mp h).1

/-- A list is a prefix of itself followed by anything, in terms of the
boolean check. -/
theorem isPrefixOf_append (l t : Str) : l.isPrefixOf (l ++ t) := by
  induction l with
  | nil => simp [List.isPrefixOf]
  | cons c cs ih => simp [List.isPrefixOf, ih]

/-- The GitHub handler never returns the empty string. -/
theorem github_process_args_ne_nil (a : Str) : GitHubCommand.process_args a ≠ [] := by
  unfold GitHubCommand.process_args
  dsimp only
  split_ifs
  · decide
  · exact str_append_ne_nil _ (by decide) _

/-- The Twitter handler never returns the empty string. -/
theorem twitter_process_args_ne_nil (a : Str) : TwitterCommand.process_args a ≠ [] := by
  unfold TwitterCommand.process_args
  dsimp only
  split_ifs
  · decide
  · exact str_append_ne_nil _ (by decide) _

/-- The Reddit handler never returns the empty string. -/
theorem reddit_process_args_ne_nil (a : Str) : RedditCommand.process_args a ≠ [] := by
  unfold RedditCommand.process_args
  dsimp only
  split_ifs
  · decide
  · exact str_append_ne_nil _ (by decide) _

/-- The Instagram handler never returns the empty string. -/
theorem instagram_process_args_ne_nil (a : Str) :
    InstagramCommand.process_args a ≠ [] := by
  unfold InstagramCommand.process_args
  dsimp only
  split_ifs
  · decide
  · exact str_append_ne_nil _ (by decide) _

/-- The Open handler never returns the empty string. -/
theorem open_process_args_ne_nil (a : Str) : OpenCommand.process_args a ≠ [] := by
  unfold OpenCommand.process_args
  dsimp only
  split_ifs with h1 h2
  · decide
  · exact h1
  · exact str_append_ne_nil _ (by decide) _

/-- The generic service handler never returns the empty string when its
root and path are non-empty. -/
theorem serviceHandler_ne_nil (root path : String) (hr : str root ≠ []) (hp : str path ≠ [])
    (a : Str) : serviceHandler root path a ≠ [] := by
  unfold serviceHandler
  dsimp only
  split_ifs
  · exact hr
  · exact str_append_ne_nil path hp _

/-- The default search provider's handler never returns the empty
string. -/
theorem google_process_args_ne_nil (a : Str) : GoogleSearchCommand.process_args a ≠ [] :=
  str_append_ne_nil _ (by decide) _

set_option maxHeartbeats 2000000 in
/-- Every registered command's handler never returns the empty string
(the spec's handler contract, checked on each embedded handler). -/
theorem registered_handlers_ne_nil (c : Command) (hc : c ∈ registeredCommands) (a : Str) :
    c.process_args a ≠ [] := by
  fin_cases hc <;>
    first
    | exact github_process_args_ne_nil a
    | exact twitter_process_args_ne_nil a
    | exact reddit_process_args_ne_nil a
    | exact instagram_process_args_ne_nil a
    | exact open_process_args_ne_nil a
    | exact google_process_args_ne_nil a
    | exact serviceHandler_ne_nil _ _ (by decide) (by decide) a

/-- A successful association-list lookup comes from some stored entry. -/
theorem mem_of_lookup_eq_some {α β : Type} [BEq α] {b : α} {v : β} {l : List (α × β)}
    (h : List.lookup b l = some v) : ∃ k, (k, v) ∈ l := by
  induction l with
  | nil => simp [List.lookup] at h
  | cons p rest ih =>
    obtain ⟨k, w⟩ := p
    cases hbk : b == k with
    | true =>
      rw [lookup_cons_pos b k w rest hbk] at h
      exact ⟨k, by rw [← Option.some.inj h]; exact List.mem_cons_self _ _⟩
    | false =>
      rw [lookup_cons_neg b k w rest hbk] at h
      obtain ⟨k', hk'⟩ := ih h
      exact ⟨k', List.mem_cons_of_mem _ hk'⟩

/-- Every entry produced by one command's registration run carries either
an old value or that command's handler. -/
theorem mem_foldl_insert {h : CommandHandler} {bs : List Str}
    {m : List (Str × CommandHandler)} {p : Str × CommandHandler}
    (hp : p ∈ bs.foldl (fun m' x => (x, h) :: m') m) :
    p ∈ m ∨ p.2 = h := by
  induction bs generalizing m with
  | nil => exact Or.inl hp
  | cons x rest ih =>
    simp only [List.foldl_cons] at hp
    rcases ih hp with hm | hh
    · rcases List.mem_cons.mp hm with h1 | h1
      · right; rw [h1]
      · left; exact h1
    · right; exact hh

/-- Every entry of the built table carries the handler of some command of
the registration list. -/
theorem mem_foldl_insertCommand {cmds : List Command} {m : List (Str × CommandHandler)}
    {p : Str × CommandHandler} (hp : p ∈ cmds.foldl insertCommand m) :
    p ∈ m ∨ ∃ c ∈ cmds, p.2 = c.process_args := by
  induction cmds generalizing m with
  | nil => exact Or.inl hp
  | cons c rest ih =>
    simp only [List.foldl_cons] at hp
    rcases ih hp with hm | ⟨c', hc', he⟩
    · rcases mem_foldl_insert hm with h1 | h1
      · left; exact h1
      · right; exact ⟨c, List.mem_cons_self c rest, h1⟩
    · right; exact ⟨c', List.mem_cons_of_mem c hc', he⟩

/-- A handler found in the registry's lookup table is the handler of some
registered command. -/
theorem lookup_handler_registered (b : Str) (h : CommandHandler)
    (hl : initialize_command_lookup.lookup b = some h) :
    ∃ c ∈ registeredCommands, c.process_args = h := by
  obtain ⟨k, hk⟩ := mem_of_lookup_eq_some hl
  rcases mem_foldl_insertCommand hk with hm | ⟨c, hc, he⟩
  · exact absurd hm (List.not_mem_nil _)
  · exact ⟨c, hc, he.symm⟩

/-- A URL produced by the prefix dispatcher is never empty. -/
theorem process_prefix_commands_ne_nil (c u : Str)
    (h : process_prefix_commands c = some u) : u ≠ [] := by
  unfold process_prefix_commands at h
  split_ifs at h with h1 h2
  injection h with h'
  subst h'
  exact str_append_ne_nil _ (by decide) _

/-- Bindings are pairwise disjoint across the full 47-command
registration list (checked by evaluation over the embedded registry). -/
theorem registered_bindings_disjoint :
    registeredCommands.Pairwise (fun c1 c2 => ∀ b ∈ c1.bindings, b ∉ c2.bindings) := by
  decide

/-- Every registered command's descriptor lists exactly the command's
declared bindings. -/
theorem registered_get_info_bindings :
    ∀ c ∈ registeredCommands, c.get_info.bindings = c.bindings := by
  decide

/-- With pairwise-disjoint bindings, the built table resolves every
command's every binding to that command's handler. -/
theorem lookup_of_pairwise_disjoint (cmds : List Command)
    (hu : cmds.Pairwise (fun c1 c2 => ∀ b ∈ c1.bindings, b ∉ c2.bindings))
    (c : Command) (hc : c ∈ cmds) (b : Str) (hb : b ∈ c.bindings) :
    (buildCommandLookup cmds).lookup b = some c.process_args := by
  obtain ⟨pre, post, rfl⟩ := List.append_of_mem hc
  have hcp := (List.pairwise_append.mp hu).2.1
  have hpost := (List.pairwise_cons.mp hcp).1
  exact buildCommandLookup_last_wins pre post c b hb
    (fun c' hc' => hpost c' hc' b hb)

/-- C1: the router follows the strict order prefix check, then exact
registry lookup applying the matched handler to the full argument string
verbatim, then fallback to the config-supplied search URL when a config
is present, otherwise the built-in default provider with the full raw
input as query. -/
theorem process_command_resolution_order (command full_args : Str)
    (config : Option BunnylolConfig) :
    process_command_with_config command full_args config =
      if command.head? = some '$' ∧ 1 < command.length then
        StockCommand.process_ticker command
      else
        match initialize_command_lookup.lookup command with
        | some handler => handler full_args
        | none =>
          match config with
          | some cfg => cfg.get_search_url full_args
          | none => GoogleSearchCommand.process_args full_args := by
  unfold process_command_with_config process_prefix_commands
  by_cases h1 : command.head? = some '$'
  · by_cases h2 : command.length ≤ 1
    · have hn : ¬(command.head? = some '$' ∧ 1 < command.length) :=
        fun hcon => absurd hcon.2 (Nat.not_lt.mpr h2)
      simp [h1, h2, Nat.not_lt.mpr h2, hn]
    · have hlt : 1 < command.length := Nat.not_le.mp h2
      simp [h1, h2, hlt]
  · have hn : ¬(command.head? = some '$' ∧ 1 < command.length) := fun hcon => h1 hcon.1
    simp [h1, hn]

/-- C2: the router is total — for every command token, argument string
and optional config (whose search template is non-empty) it returns a
non-empty URL string, and the empty input resolves to the default-search
URL. -/
theorem router_total_nonempty (command full_args : Str) (config : Option BunnylolConfig)
    (hcfg : ∀ cfg, config = some cfg → cfg.default_search ≠ []) :
    process_command_with_config command full_args config ≠ [] ∧
    process_command_with_config [] [] config =
      (match config with
       | some cfg => cfg.get_search_url []
       | none => GoogleSearchCommand.process_args []) := by
  constructor
  · unfold process_command_with_config
    cases hp : process_prefix_commands command with
    | some url => exact process_prefix_commands_ne_nil command url hp
    | none =>
      cases hl : initialize_command_lookup.lookup command with
      | some handler =>
        obtain ⟨c, hc, he⟩ := lookup_handler_registered command handler hl
        rw [← he]
        exact registered_handlers_ne_nil c hc full_args
      | none =>
        cases config with
        | some cfg =>
          intro hcontra
          exact hcfg cfg rfl (List.append_eq_nil.mp hcontra).1
        | none => exact str_append_ne_nil _ (by decide) _
  · cases config <;> rfl

/-- Witness for C2 at the token `zzznotacommand` and the empty input,
with no config. -/
theorem router_total_nonempty_witness :
    process_command_with_config (str "zzznotacommand") (str "zzznotacommand") none ≠ [] ∧
    process_command_with_config [] [] none =
      (match (none : Option BunnylolConfig) with
       | some cfg => cfg.get_search_url []
       | none => GoogleSearchCommand.process_args []) :=
  router_total_nonempty (str "zzznotacommand") (str "zzznotacommand") none
    (fun _ h => nomatch h)

/-- C3: the bare sentinel token resolves to the default-search URL while
a sentinel-plus-ticker token dispatches to the stock handler, whose URL
differs from the default-search one. -/
theorem sentinel_prefix_dispatch :
    process_command_with_config (str "$") (str "$") none =
      GoogleSearchCommand.process_args (str "$") ∧
    process_command_with_config (str "$AAPL") (str "$AAPL") none =
      StockCommand.process_ticker (str "$AAPL") ∧
    process_command_with_config (str "$AAPL") (str "$AAPL") none ≠
      GoogleSearchCommand.process_args (str "$AAPL") :=
  ⟨rfl, rfl, by decide⟩

/-- C4: for every registered command and every binding it declares,
looking the binding up in the built table returns that command's
handler, and the command's descriptor lists the binding. -/
theorem lookup_get_info_roundtrip (c : Command) (hc : c ∈ registeredCommands) (b : Str)
    (hb : b ∈ c.bindings) :
    initialize_command_lookup.lookup b = some c.process_args ∧ b ∈ c.get_info.bindings := by
  refine ⟨lookup_of_pairwise_disjoint registeredCommands registered_bindings_disjoint
    c hc b hb, ?_⟩
  rw [registered_get_info_bindings c hc]
  exact hb

/-- Witness for C4 at the GitHub command and its binding `gh`. -/
theorem lookup_get_info_roundtrip_witness :
    initialize_command_lookup.lookup (str "gh") = some GitHubCommand.process_args ∧
    str "gh" ∈ GitHubCommand.get_info.bindings :=
  lookup_get_info_roundtrip GitHubCommand (by simp [registeredCommands]) (str "gh")
    (by decide)

/-- C5: no two distinct registered commands declare the same binding
string — bindings are globally unique, case-sensitively, across the
registration list. -/
theorem bindings_globally_unique :
    registeredCommands.Pairwise (fun c1 c2 => ∀ b ∈ c1.bindings, b ∉ c2.bindings) :=
  registered_bindings_disjoint

/-- C6: when two commands in the registration sequence declare the same
binding, building the lookup table raises no error and the
later-registered command's handler occupies the binding: lookup returns
the later command's handler. -/
theorem later_registration_shadows (pre mid post : List Command) (c1 c2 : Command) (b : Str)
    (h1 : b ∈ c1.bindings) (h2 : b ∈ c2.bindings)
    (hpost : ∀ c ∈ post, b ∉ c.bindings) :
    (buildCommandLookup (pre ++ c1 :: (mid ++ c2 :: post))).lookup b =
      some c2.process_args := by
  have hsplit : pre ++ c1 :: (mid ++ c2 :: post) = (pre ++ c1 :: mid) ++ c2 :: post := by
    simp
  rw [hsplit]
  exact buildCommandLookup_last_wins (pre ++ c1 :: mid) post c2 b h2 hpost

/-- Witness for C6: a duplicate `gh` registration after the GitHub
command silently yields the later handler. -/
theorem later_registration_shadows_witness :
    (buildCommandLookup [GitHubCommand, ShadowGithubCommand]).lookup (str "gh") =
      some ShadowGithubCommand.process_args :=
  later_registration_shadows [] [] [] GitHubCommand ShadowGithubCommand (str "gh")
    (by decide) (by decide) (fun c hc => absurd hc (List.not_mem_nil c))

/-- C7: the descriptor listing is built once and cached — a first call
builds it from the registered list, and a repeated call observes the
identical cached value and leaves the cell unchanged. -/
theorem get_all_commands_cached (cell : Option (List BunnylolCommandInfo)) :
    (get_all_commands none).1 = get_all_commands_impl ∧
    (get_all_commands ((get_all_commands cell).2)).1 = (get_all_commands cell).1 ∧
    (get_all_commands ((get_all_commands cell).2)).2 = (get_all_commands cell).2 := by
  refine ⟨rfl, ?_, ?_⟩ <;> cases cell <;> rfl

/-- C8: with the user alias `work` mapping to `gh mbinns`, resolving the
input `work` through the search pipeline yields the identical
destination URL as routing the command `gh` with full argument string
`gh mbinns` directly. -/
theorem alias_resolution_matches_direct :
    (search (some (str "work")) workConfig none).1 =
      SearchResponse.redirect
        (process_command_with_config (str "gh") (str "gh mbinns") (some workConfig)) ∧
    process_command_with_config (str "gh") (str "gh mbinns") (some workConfig) =
      str "https://github.com/mbinns" :=
  ⟨by decide, by decide⟩

/-- C9: the search handler always delivers the redirect to the resolved
URL regardless of the history write's outcome, and a failed history
write with history enabled is only logged as a warning. -/
theorem search_redirect_independent_of_history (cmd_str e : Str) (config : BunnylolConfig)
    (history : HistoryOutcome) :
    (search (some cmd_str) config history).1 =
      SearchResponse.redirect
        (process_command_with_config
          (get_command_from_query_string (config.resolve_command cmd_str))
          (config.resolve_command cmd_str) (some config)) ∧
    (search (some cmd_str) config (some (Except.error e))).2 =
      (if config.history_enabled then
        [str "Warning: Failed to save command to history: " ++ e]
      else []) :=
  ⟨rfl, rfl⟩

/-- C10: the Open handler always returns a non-empty string beginning
with a scheme — the empty trimmed argument maps to exactly `https://`, a
scheme-carrying argument is returned unchanged, and any other argument
gets `https://` prepended. -/
theorem open_process_args_characterization (args : Str) :
    OpenCommand.process_args args ≠ [] ∧
    ((str "http://").isPrefixOf (OpenCommand.process_args args) ∨
      (str "https://").isPrefixOf (OpenCommand.process_args args)) ∧
    OpenCommand.process_args args =
      (if trim (get_command_args args) = [] then str "https://"
       else if (str "http://").isPrefixOf (trim (get_command_args args)) ∨
           (str "https://").isPrefixOf (trim (get_command_args args)) then
         trim (get_command_args args)
       else str "https://" ++ trim (get_command_args args)) := by
  refine ⟨open_process_args_ne_nil args, ?_, rfl⟩
  unfold OpenCommand.process_args
  dsimp only
  split_ifs with h1 h2
  · right; decide
  · exact h2
  · right; exact isPrefixOf_append (str "https://") (trim (get_command_args args))
